import Mathlib

/-!
Verification of the pt-user-reading-analysis batch job.

The Python sources are shallowly embedded:
* `libs/openai_assistant.py` — citation stripping (`clean_text`), the two
  run-polling loops (`analyze_user_interest`, `search_books_by_interest`)
  and teardown (`delete_assistant`);
* `libs/data_source.py` — the warehouse queries, modelled as list
  computations over explicit table rows (the declarative semantics of the
  SQL text);
* `run_task.py` — the job driver, modelled as a trace-producing function
  over oracles that say which external steps raise.

Strings are modelled by `String`/`List Char`; the regex
`【\d+:\d+†source】` is compiled by hand into a deterministic matcher
(the pattern contains no backtracking choice: each `\d+` is followed by a
non-digit literal; `\d` is modelled as the ASCII digits). `str.strip` is modelled on the ASCII whitespace
characters Python strips.
-/

namespace OpenAIAssistant

/-- One attempt of the regex `【\d+:\d+†source】` at the head of the
character list: on success, returns the remainder after the match. -/
def matchCitation : List Char → Option (List Char)
  | '【' :: rest =>
    if (rest.takeWhile Char.isDigit).isEmpty then none
    else
      match rest.dropWhile Char.isDigit with
      | ':' :: r2 =>
        if (r2.takeWhile Char.isDigit).isEmpty then none
        else
          match r2.dropWhile Char.isDigit with
          | '†' :: 's' :: 'o' :: 'u' :: 'r' :: 'c' :: 'e' :: '】' :: r4 => some r4
          | _ => none
      | _ => none
  | _ => none

/-- Left-to-right scan of `re.sub(r"【\d+:\d+†source】", "", ·)`: at each
position try the pattern; on a match emit nothing and continue after it,
otherwise keep the character.  Fuel-indexed so the definition is
structural; `subCitations` supplies `l.length`, which is always enough
because every step consumes at least one character. -/
def subCitationsAux : Nat → List Char → List Char
  | 0, l => l
  | _ + 1, [] => []
  | fuel + 1, c :: rest =>
    match matchCitation (c :: rest) with
    | some r => subCitationsAux fuel r
    | none => c :: subCitationsAux fuel rest

/-- `re.sub(r"【\d+:\d+†source】", "", text)` on character lists. -/
def subCitations (l : List Char) : List Char := subCitationsAux l.length l

/-- The ASCII whitespace characters removed by Python `str.strip()`. -/
def isPySpace (c : Char) : Bool :=
  c = ' ' || c = '\t' || c = '\n' || c = '\r' || c = '\x0b' || c = '\x0c'

/-- Python `str.strip()`: drop whitespace from both ends. -/
def pyStrip (l : List Char) : List Char :=
  List.rdropWhile isPySpace (l.dropWhile isPySpace)

/-- `clean_text` from `libs/openai_assistant.py`:
`re.sub(r"【\d+:\d+†source】", "", text).strip()`. -/
def clean_text (s : String) : String :=
  String.mk (pyStrip (subCitations s.data))

/-- `true` iff the citation pattern occurs somewhere in the list. -/
def hasCitation : List Char → Bool
  | [] => false
  | c :: rest => (matchCitation (c :: rest)).isSome || hasCitation rest

/-- A vendor vector store bound to the assistant: its id and the ids of
the files it holds (as returned by `client.vector_stores.files.list`). -/
structure VectorStore where
  id : String
  files : List String
deriving DecidableEq

/-- The API calls issued by `delete_assistant`. -/
inductive CleanupCall
  | retrieve
  | deleteAsst
  | listFiles (vs : String)
  | deleteFile (vs : String) (f : String)
  | deleteVS (vs : String)
deriving DecidableEq

/-- The inner `for file in vector_store_files.data` loop: delete files one
by one; a raising deletion (`fileOk vsid f = false`) ends the loop (the
exception propagates to the per-store `except`).  Returns the calls made
and whether all of them succeeded. -/
def deleteFilesCalls (fileOk : String → String → Bool) (vsid : String) :
    List String → List CleanupCall × Bool
  | [] => ([], true)
  | f :: rest =>
    if fileOk vsid f then
      (CleanupCall.deleteFile vsid f :: (deleteFilesCalls fileOk vsid rest).1,
       (deleteFilesCalls fileOk vsid rest).2)
    else ([CleanupCall.deleteFile vsid f], false)

/-- The body of `for vector_store_id in vector_store_ids` (lines 260-275),
wrapped in its own try/except: list the files (a raising list call ends
the block), delete each file, and — only if no file deletion raised —
delete the vector store itself. -/
def cleanupStore (listOk : String → Bool) (fileOk : String → String → Bool)
    (vs : VectorStore) : List CleanupCall :=
  if listOk vs.id then
    CleanupCall.listFiles vs.id ::
      ((deleteFilesCalls fileOk vs.id vs.files).1 ++
        (if (deleteFilesCalls fileOk vs.id vs.files).2 then
          [CleanupCall.deleteVS vs.id] else []))
  else [CleanupCall.listFiles vs.id]

/-- `delete_assistant` (lines 242-278) as the trace of API calls it makes:
retrieve the assistant (reading the bound vector-store ids), delete the
assistant, then clean up each vector store in turn.  `retrieveOk`/
`deleteOk` say whether the two assistant calls raise; a raise there is
caught by the *outer* except, ending the whole function. -/
def delete_assistant (retrieveOk deleteOk : Bool) (listOk : String → Bool)
    (fileOk : String → String → Bool) (stores : List VectorStore) :
    List CleanupCall :=
  if retrieveOk then
    if deleteOk then
      CleanupCall.retrieve :: CleanupCall.deleteAsst ::
        (stores.map (cleanupStore listOk fileOk)).flatten
    else [CleanupCall.retrieve, CleanupCall.deleteAsst]
  else [CleanupCall.retrieve]

def isDeleteVS : CleanupCall → Bool
  | CleanupCall.deleteVS _ => true
  | _ => false

def isDeleteAsstCall : CleanupCall → Bool
  | CleanupCall.deleteAsst => true
  | _ => false

/-- `p`-calls all occur strictly before `q`-calls in the trace `t`. -/
def callsBefore (t : List CleanupCall) (p q : CleanupCall → Bool) : Prop :=
  ∀ i j : Fin t.length, p (t.get i) = true → q (t.get j) = true → (i : Nat) < (j : Nat)

instance (t : List CleanupCall) (p q : CleanupCall → Bool) :
    Decidable (callsBefore t p q) := by
  unfold callsBefore
  infer_instance

/-- A recommended-book object from the tool-call arguments, as a JSON
object with string fields (the dict the Python code mutates in place). -/
abbrev BookObj := List (String × String)

/-- Python `book[k] = v` on an existing key: replace the value, keep the
position.  (In `search_books_by_interest` the key was just read, so it
exists; on a Python dict keys are unique, which this map-style update
agrees with.) -/
def setKey (k v : String) (b : BookObj) : BookObj :=
  b.map (fun kv => if kv.1 = k then (k, v) else kv)

/-- Lines 214-216 of `search_books_by_interest`:
`book["reason"] = clean_text(book["reason"])` then
`book["book_title"] = clean_text(book["book_title"])`.  Reading a missing
key raises `KeyError` (`none`). -/
def cleanBook (b : BookObj) : Option BookObj :=
  match List.lookup "reason" b with
  | none => none
  | some r =>
    match List.lookup "book_title" (setKey "reason" (clean_text r) b) with
    | none => none
    | some t =>
      some (setKey "book_title" (clean_text t) (setKey "reason" (clean_text r) b))

/-- One tool call as surfaced by a `requires_action` poll: its function
name and the (already JSON-decoded) arguments relevant to the two loops —
`function_args.get("recommendation_summary", "")` and
`function_args.get("recommended_books", [])` read these. -/
structure ToolCall where
  fname : String
  summaryArg : Option String
  booksArg : Option (List BookObj)
deriving DecidableEq

/-- A polled run status (`client.beta.threads.runs.retrieve`). -/
inductive RunStatus
  | queued
  | in_progress
  | requires_action (tcs : List ToolCall)
  | completed
  | failed
  | cancelled
deriving DecidableEq

/-- The `for tool_call in tool_calls` body of `analyze_user_interest`:
each `recommend_books` call overwrites the summary with its
`recommendation_summary` argument (default `""`). -/
def analyzeToolStep (tcs : List ToolCall) (acc : String) : String :=
  tcs.foldl (fun a tc =>
    if tc.fname = "recommend_books" then tc.summaryArg.getD "" else a) acc

/-- The `while True` polling loop of `analyze_user_interest` (lines
129-163) over the successive statuses the service reports: break on a
terminal status, react to `requires_action`, otherwise keep polling.
`none` models a poll stream that never reaches a terminal status (the
Python loop never returns). -/
def analyzeLoop : List RunStatus → String → Option (RunStatus × String)
  | [], _ => none
  | st :: rest, acc =>
    match st with
    | RunStatus.completed => some (RunStatus.completed, acc)
    | RunStatus.failed => some (RunStatus.failed, acc)
    | RunStatus.cancelled => some (RunStatus.cancelled, acc)
    | RunStatus.requires_action tcs => analyzeLoop rest (analyzeToolStep tcs acc)
    | _ => analyzeLoop rest acc

/-- `analyze_user_interest` (lines 104-169): run the loop; if the
terminal status is not `completed`, return `""`, else the summary. -/
def analyze_user_interest (polls : List RunStatus) : Option String :=
  match analyzeLoop polls "" with
  | none => none
  | some (RunStatus.completed, acc) => some acc
  | some _ => some ""

/-- The `for tool_call in tool_calls` body of `search_books_by_interest`:
each `recommend_books` call replaces the list with its
`recommended_books` argument (default `[]`), rewriting every book with
`cleanBook`; a `KeyError` in that rewrite propagates (`none`). -/
def searchToolStep (tcs : List ToolCall) (acc : List BookObj) :
    Option (List BookObj) :=
  tcs.foldlM (fun a tc =>
    if tc.fname = "recommend_books" then (tc.booksArg.getD []).mapM cleanBook
    else some a) acc

/-- The `while True` polling loop of `search_books_by_interest` (lines
194-233). -/
def searchLoop : List RunStatus → List BookObj → Option (RunStatus × List BookObj)
  | [], _ => none
  | st :: rest, acc =>
    match st with
    | RunStatus.completed => some (RunStatus.completed, acc)
    | RunStatus.failed => some (RunStatus.failed, acc)
    | RunStatus.cancelled => some (RunStatus.cancelled, acc)
    | RunStatus.requires_action tcs =>
      match searchToolStep tcs acc with
      | none => none
      | some acc2 => searchLoop rest acc2
    | _ => searchLoop rest acc

/-- `search_books_by_interest` (lines 171-239): run the loop; if the
terminal status is not `completed`, return `[]`, else the rewritten
recommended-book list. -/
def search_books_by_interest (polls : List RunStatus) : Option (List BookObj) :=
  match searchLoop polls [] with
  | none => none
  | some (RunStatus.completed, acc) => some acc
  | some _ => some []

end OpenAIAssistant

namespace RunTask

/-- The externally visible steps of one `run_task.py` invocation. -/
inductive TaskCall
  | fetchBooks
  | ensureAssistant
  | unlinkFile
  | getActiveUsers
  | processUser (u : String)
  | deleteAssistant
deriving DecidableEq

/-- Python `int(s)` on the command-line argument: surrounding whitespace
is ignored, an optional sign precedes a nonempty run of decimal digits;
anything else raises `ValueError` (`none`).  (Underscore separators and
non-ASCII digits, which `int` also accepts, are not modelled; no claim
depends on them.) -/
def parseIntPy (s : String) : Option Int :=
  match OpenAIAssistant.pyStrip s.data with
  | [] => none
  | '-' :: ds =>
    if ds.isEmpty || !ds.all Char.isDigit then none
    else some (-(ds.foldl (fun a c => 10 * a + (c.toNat - '0'.toNat)) 0 : Nat))
  | '+' :: ds =>
    if ds.isEmpty || !ds.all Char.isDigit then none
    else some ((ds.foldl (fun a c => 10 * a + (c.toNat - '0'.toNat)) 0 : Nat))
  | ds =>
    if !ds.all Char.isDigit then none
    else some ((ds.foldl (fun a c => 10 * a + (c.toNat - '0'.toNat)) 0 : Nat))

/-- The `for user_id in users` loop of `run_task.py` (lines 20-43).
`fails u` says whether processing user `u` (warehouse reads, the two
assistant runs, printing) raises.  Returns the per-user calls emitted and
whether an exception escaped the loop.  After processing a user the code
runs `if number_of_users == 1: break` and otherwise decrements, so the
counter is threaded as an `Int`. -/
def loopUsers (fails : String → Bool) : Int → List String → List TaskCall × Bool
  | _, [] => ([], false)
  | n, u :: rest =>
    if fails u then ([TaskCall.processUser u], true)
    else if n = 1 then ([TaskCall.processUser u], false)
    else (TaskCall.processUser u :: (loopUsers fails (n - 1) rest).1,
          (loopUsers fails (n - 1) rest).2)

/-- `run_task.py` as a trace: fetch the catalog, provision the assistant,
unlink the temp file, parse the optional argv[1] with `int` (a parse
failure raises *outside* the try/finally), then run the guarded loop whose
`finally` deletes the assistant.  The Bool records whether an uncaught
exception escaped the script. -/
def run_task (argv1 : Option String) (users : List String)
    (fails : String → Bool) : List TaskCall × Bool :=
  let setup := [TaskCall.fetchBooks, TaskCall.ensureAssistant, TaskCall.unlinkFile]
  let go : Int → List TaskCall × Bool := fun n =>
    (setup ++ TaskCall.getActiveUsers ::
       ((loopUsers fails n users).1 ++ [TaskCall.deleteAssistant]),
     (loopUsers fails n users).2)
  match argv1 with
  | none => go 1
  | some s =>
    match parseIntPy s with
    | none => (setup, true)
    | some n => go n

def isDeleteAssistant : TaskCall → Bool
  | TaskCall.deleteAssistant => true
  | _ => false

def isProcessUser : TaskCall → Bool
  | TaskCall.processUser _ => true
  | _ => false

/-- Number of calls in a trace satisfying `p`. -/
def countCalls (p : TaskCall → Bool) (t : List TaskCall) : Nat :=
  (t.filter p).length

end RunTask

namespace DataSource

/-- One row of `STUDENTS_READING_SESSIONS` (the columns the queries use);
`event_time` is a timestamp in seconds. -/
structure Session where
  user_id : String
  event_time : Int
  book_permanent_id : String
deriving DecidableEq

/-- One row of `BOOKS_LIST` (the columns selected by the CTE). -/
structure BookRow where
  permanent_id : String
  title : String
  author : String
  isbn : String
  language_code : String
  genre : String
  publisher : String
  word_count : Int
  default_categories : String
deriving DecidableEq

/-- `DATEADD(DAY, d, t)` with timestamps in seconds. -/
def dateAddDays (t : Int) (d : Int) : Int := t + d * 86400

/-- Comparison used by `ORDER BY ACTIVITY_COUNT DESC` on `(user, count)`
rows. -/
def countDesc (a b : String × Nat) : Prop := b.2 ≤ a.2

instance : DecidableRel countDesc := fun a b => Nat.decLe b.2 a.2

instance : IsTotal (String × Nat) countDesc :=
  ⟨fun a b => le_total b.2 a.2⟩

instance : IsTrans (String × Nat) countDesc :=
  ⟨fun _ _ _ hab hbc => le_trans hbc hab⟩

/-- The `WHERE EVENT_TIME >= DATEADD(DAY, -days, CURRENT_TIMESTAMP())`
restriction of the sessions table. -/
def activeWin (sessions : List Session) (now days : Int) : List Session :=
  sessions.filter (fun s => dateAddDays now (-days) ≤ s.event_time)

/-- The number of in-window activity events of `u` (the per-group
`COUNT(*)`). -/
def winCount (sessions : List Session) (now days : Int) (u : String) : Nat :=
  ((activeWin sessions now days).filter (fun s => s.user_id = u)).length

/-- `GROUP BY USER_ID HAVING COUNT(*) >= minCount`: one `(user, count)`
row per distinct in-window user whose count reaches the threshold. -/
def activeRows (sessions : List Session) (now days : Int)
    (minCount : Nat) : List (String × Nat) :=
  (((activeWin sessions now days).map Session.user_id).dedup).filterMap
    (fun u =>
      if minCount ≤ winCount sessions now days u then
        some (u, winCount sessions now days u)
      else none)

/-- `get_active_users` (`data_source.py` lines 32-54) as the declarative
semantics of its SQL: group the in-window sessions by user, keep groups
with at least `minCount` rows, order by descending count, return the
user ids (`row[0]`). -/
def get_active_users (sessions : List Session) (now : Int)
    (days : Int) (minCount : Nat) : List String :=
  ((activeRows sessions now days minCount).insertionSort countDesc).map
    Prod.fst

/-- Ordering used by `ORDER BY EVENT_TIME DESC` on joined rows. -/
def timeDesc (a b : Session × BookRow) : Prop :=
  b.1.event_time ≤ a.1.event_time

instance : DecidableRel timeDesc :=
  fun a b => Int.decLe b.1.event_time a.1.event_time

instance : IsTotal (Session × BookRow) timeDesc :=
  ⟨fun a b => le_total b.1.event_time a.1.event_time⟩

instance : IsTrans (Session × BookRow) timeDesc :=
  ⟨fun _ _ _ hab hbc => le_trans hbc hab⟩

/-- The join `sessions JOIN books ON s.BOOK_PERMANENT_ID = b.PERMANENT_ID`. -/
def joinedRows (sessions : List Session) (books : List BookRow) :
    List (Session × BookRow) :=
  sessions.flatMap (fun s =>
    (books.filter (fun b => s.book_permanent_id = b.permanent_id)).map
      (fun b => (s, b)))

/-- The CTE body: joined rows restricted to `s.USER_ID = user_id`. -/
def rankedSource (sessions : List Session) (books : List BookRow)
    (user_id : String) : List (Session × BookRow) :=
  (joinedRows sessions books).filter (fun r => r.1.user_id = user_id)

/-- The row with `ROW_NUMBER() OVER (PARTITION BY PERMANENT_ID ORDER BY
EVENT_TIME DESC) = 1` inside one partition: a row of maximal event time.
SQL leaves ties arbitrary; this model keeps the earliest-listed row among
ties, which is one admissible choice. -/
def pickLatest (l : List (Session × BookRow)) : Option (Session × BookRow) :=
  match l with
  | [] => none
  | r :: rest =>
    some (rest.foldl
      (fun best x => if best.1.event_time < x.1.event_time then x else best) r)

/-- `SELECT * FROM RankedBooks WHERE rn = 1`: one maximal-time row per
distinct `PERMANENT_ID`. -/
def latestPerBook (sessions : List Session) (books : List BookRow)
    (user_id : String) : List (Session × BookRow) :=
  let src := rankedSource sessions books user_id
  ((src.map (fun r => r.2.permanent_id)).dedup).filterMap
    (fun k => pickLatest (src.filter (fun r => r.2.permanent_id = k)))

/-- The dict built per returned row (`data_source.py` lines 92-105);
`json.loads(row[9])` is abstracted by carrying the raw
`DEFAULT_CATEGORIES` text. -/
structure BookRecord where
  event_time : Int
  title : String
  author : String
  isbn : String
  language_code : String
  genre : String
  publisher : String
  word_count : Int
  categories : String
  book_id : String
deriving DecidableEq

def rowToBook (r : Session × BookRow) : BookRecord :=
  { event_time := r.1.event_time
    title := r.2.title
    author := r.2.author
    isbn := r.2.isbn
    language_code := r.2.language_code
    genre := r.2.genre
    publisher := r.2.publisher
    word_count := r.2.word_count
    categories := r.2.default_categories
    book_id := r.2.permanent_id }

/-- `get_user_read_books` (`data_source.py` lines 56-106): one row per
distinct book, ordered by `EVENT_TIME DESC`, `LIMIT` applied, converted
to dicts. -/
def get_user_read_books (sessions : List Session) (books : List BookRow)
    (user_id : String) (LIMIT : Nat := 5) : List BookRecord :=
  (((latestPerBook sessions books user_id).insertionSort timeDesc).take
    LIMIT).map rowToBook

/-- One row of `REGULAR_BOOK` (the columns the catalog queries use). -/
structure RegularBook where
  id : Int
  permanent_id : String
  title : String
  description : String
deriving DecidableEq

/-- One row of `PUBLISHED_BOOK`. -/
structure PublishedBook where
  id : Int
  published_book_id : Int
deriving DecidableEq

/-- One row of `PUBLISHED_BOOK_ENVIRONMENTS`. -/
structure PublishedBookEnv where
  published_book_id : Int
  environments_id : Int
deriving DecidableEq

/-- One row of `ENVIRONMENT`. -/
structure EnvRow where
  id : Int
  name : String
deriving DecidableEq

/-- One row of `BOOK_EXTENDED_INFO`. -/
structure BookExtendedInfo where
  book_id : Int
  extended_book_info : String
deriving DecidableEq

/-- The studio-catalog tables queried by `get_book_info` and
`fetch_all_production_books`. -/
structure StudioDB where
  regular_books : List RegularBook
  published_books : List PublishedBook
  published_book_environments : List PublishedBookEnv
  environments : List EnvRow
  book_extended_infos : List BookExtendedInfo

/-- The row set of the `get_book_info` query (`data_source.py` lines
111-122): the four inner joins with `E.NAME = 'production'`, restricted
to `PERMANENT_ID = book_id`, with `SELECT DISTINCT (PERMANENT_ID,
DESCRIPTION, EXTENDED_BOOK_INFO)`. -/
def bookInfoRows (db : StudioDB) (book_id : String) :
    List (String × String × String) :=
  ((db.regular_books.flatMap fun rb =>
    (db.published_books.filter fun pb =>
        decide (pb.published_book_id = rb.id)).flatMap fun pb =>
      (db.published_book_environments.filter fun pbe =>
          decide (pbe.published_book_id = pb.id)).flatMap fun pbe =>
        (db.environments.filter fun e =>
            decide (e.id = pbe.environments_id ∧ e.name = "production")).flatMap
          fun _e =>
          (db.book_extended_infos.filter fun bei =>
              decide (bei.book_id = rb.id)).map fun bei =>
            (rb.permanent_id, rb.description, bei.extended_book_info)).filter
    (fun r => decide (r.1 = book_id))).dedup

/-- `get_book_info` (`data_source.py` lines 108-127): `""` when the query
returns no rows, else `rows[0][1]` (the `DESCRIPTION` column). -/
def get_book_info (db : StudioDB) (book_id : String) : String :=
  match bookInfoRows db book_id with
  | [] => ""
  | r :: _ => r.2.1

/-- The row set of the `fetch_all_production_books` query (lines
136-145): same joins without `BOOK_EXTENDED_INFO`, `SELECT DISTINCT
(PERMANENT_ID, TITLE, DESCRIPTION)`. -/
def productionBooksRows (db : StudioDB) : List (String × String × String) :=
  (db.regular_books.flatMap fun rb =>
    (db.published_books.filter fun pb =>
        decide (pb.published_book_id = rb.id)).flatMap fun pb =>
      (db.published_book_environments.filter fun pbe =>
          decide (pbe.published_book_id = pb.id)).flatMap fun pbe =>
        (db.environments.filter fun e =>
            decide (e.id = pbe.environments_id ∧ e.name = "production")).map
          fun _e => (rb.permanent_id, rb.title, rb.description)).dedup

/-- One hexadecimal digit, lower case. -/
def hexDigit (n : Nat) : Char :=
  if n < 10 then Char.ofNat ('0'.toNat + n) else Char.ofNat ('a'.toNat + n - 10)

/-- Four-digit `\uXXXX` escape body. -/
def hex4 (n : Nat) : String :=
  String.mk [hexDigit (n / 4096 % 16), hexDigit (n / 256 % 16),
    hexDigit (n / 16 % 16), hexDigit (n % 16)]

/-- `json.dumps` escaping of one character (default `ensure_ascii=True`:
quote, backslash and the short control escapes, `\uXXXX` for remaining
control and all non-ASCII characters; astral characters would use
surrogate pairs, not needed for the catalog claims). -/
def escapeJsonChar (c : Char) : String :=
  if c = '"' then "\\\""
  else if c = '\\' then "\\\\"
  else if c = '\n' then "\\n"
  else if c = '\t' then "\\t"
  else if c = '\r' then "\\r"
  else if c = '\x08' then "\\b"
  else if c = '\x0c' then "\\f"
  else if c.toNat < 32 || 126 < c.toNat then "\\u" ++ hex4 c.toNat
  else String.singleton c

/-- `json.dumps` of a string. -/
def jsonStr (s : String) : String :=
  "\"" ++ String.join (s.data.map escapeJsonChar) ++ "\""

/-- `json.dumps` of a flat object with string values (default
separators `", "` and `": "`, insertion order preserved). -/
def jsonObj (fields : List (String × String)) : String :=
  "\x7b" ++
    String.intercalate ", "
      (fields.map fun kv => jsonStr kv.1 ++ ": " ++ jsonStr kv.2) ++
  "\x7d"

/-- The dict serialized per row (`data_source.py` lines 151-155): keys
`book_id`, `book_title`, `book_Description`. -/
def libraryRecord (r : String × String × String) : List (String × String) :=
  [("book_id", r.1), ("book_title", r.2.1), ("book_Description", r.2.2)]

/-- The lines written to the temporary catalog file, one JSON object per
row. -/
def libraryLines (db : StudioDB) : List String :=
  (productionBooksRows db).map (fun r => jsonObj (libraryRecord r))

/-- The full content of the file written by `fetch_all_production_books`
(lines 149-156): each line followed by a newline. -/
def fetch_all_production_books (db : StudioDB) : String :=
  String.join ((libraryLines db).map (fun line => line ++ "\n"))

/-- A one-book example catalog: one regular book published in the
`production` environment. -/
def exampleDB : StudioDB :=
  { regular_books := [⟨10, "p1", "T1", "D1"⟩]
    published_books := [⟨20, 10⟩]
    published_book_environments := [⟨20, 30⟩]
    environments := [⟨30, "production"⟩]
    book_extended_infos := [⟨10, "E1"⟩] }

end DataSource

namespace OpenAIAssistant

theorem subCitationsAux_of_not_hasCitation (fuel : Nat) (l : List Char)
    (h : hasCitation l = false) : subCitationsAux fuel l = l := by
  induction fuel generalizing l with
  | zero => rfl
  | succ n ih =>
    cases l with
    | nil => rfl
    | cons c rest =>
      rw [hasCitation, Bool.or_eq_false_iff] at h
      obtain ⟨h1, h2⟩ := h
      cases hm : matchCitation (c :: rest) with
      | some r => rw [hm] at h1; simp at h1
      | none => simp [subCitationsAux, hm, ih rest h2]

theorem subCitations_of_not_hasCitation (l : List Char)
    (h : hasCitation l = false) : subCitations l = l :=
  subCitationsAux_of_not_hasCitation _ _ h

theorem dropWhile_rdropWhile_of_fixed (p : Char → Bool) (l : List Char)
    (h : l.dropWhile p = l) :
    (List.rdropWhile p l).dropWhile p = List.rdropWhile p l := by
  obtain ⟨t, ht⟩ := List.rdropWhile_prefix p l
  cases hB : List.rdropWhile p l with
  | nil => simp
  | cons b bs =>
    rw [hB] at ht
    have hb : ¬ p b = true := by
      intro hpb
      rw [← ht] at h
      rw [List.cons_append, List.dropWhile_cons_of_pos hpb] at h
      have hlen := (List.dropWhile_sublist (l := bs ++ t) p).length_le
      rw [h] at hlen
      simp at hlen
    simp [List.dropWhile_cons_of_neg hb]

theorem pyStrip_idempotent (l : List Char) : pyStrip (pyStrip l) = pyStrip l := by
  unfold pyStrip
  rw [dropWhile_rdropWhile_of_fixed isPySpace (l.dropWhile isPySpace)
        (List.dropWhile_idempotent isPySpace l),
      List.rdropWhile_idempotent]

theorem deleteFilesCalls_all_ok (fileOk : String → String → Bool)
    (vsid : String) (files : List String)
    (h : ∀ f ∈ files, fileOk vsid f = true) :
    deleteFilesCalls fileOk vsid files =
      (files.map (CleanupCall.deleteFile vsid), true) := by
  induction files with
  | nil => rfl
  | cons f rest ih =>
    have hf := h f (by simp)
    simp [deleteFilesCalls, hf, ih (fun g hg => h g (by simp [hg]))]

theorem lookup_setKey_ne (k k' v : String) (b : BookObj) (h : k ≠ k') :
    List.lookup k (setKey k' v b) = List.lookup k b := by
  induction b with
  | nil => rfl
  | cons kv rest ih =>
    obtain ⟨a, w⟩ := kv
    by_cases ha : a = k'
    · subst ha
      have hk : (k == a) = false := beq_false_of_ne h
      have hhead : setKey a v ((a, w) :: rest) = (a, v) :: setKey a v rest := by
        simp [setKey]
      rw [hhead, List.lookup_cons, List.lookup_cons, hk]
      exact ih
    · have hhead : setKey k' v ((a, w) :: rest) = (a, w) :: setKey k' v rest := by
        simp [setKey, ha]
      rw [hhead, List.lookup_cons, List.lookup_cons]
      cases hkv : (k == a) with
      | true => rfl
      | false => exact ih

theorem lookup_setKey_self (k v : String) (b : BookObj) :
    List.lookup k (setKey k v b) = (List.lookup k b).map (fun _ => v) := by
  induction b with
  | nil => rfl
  | cons kv rest ih =>
    obtain ⟨a, w⟩ := kv
    by_cases ha : a = k
    · subst ha
      have hk : (a == a) = true := beq_iff_eq.mpr rfl
      have hhead : setKey a v ((a, w) :: rest) = (a, v) :: setKey a v rest := by
        simp [setKey]
      rw [hhead, List.lookup_cons, List.lookup_cons, hk]
      rfl
    · have hk : (k == a) = false := beq_false_of_ne (fun e => ha e.symm)
      have hhead : setKey k v ((a, w) :: rest) = (a, w) :: setKey k v rest := by
        simp [setKey, ha]
      rw [hhead, List.lookup_cons, List.lookup_cons, hk]
      exact ih

end OpenAIAssistant

namespace RunTask

theorem loopUsers_no_delete (fails : String → Bool) (n : Int) (users : List String) :
    countCalls isDeleteAssistant (loopUsers fails n users).1 = 0 := by
  induction users generalizing n with
  | nil => rfl
  | cons u rest ih =>
    by_cases hf : fails u
    · simp [loopUsers, hf, countCalls, isProcessUser, isDeleteAssistant]
    · by_cases hn : n = 1
      · simp [loopUsers, hf, hn, countCalls, isProcessUser, isDeleteAssistant]
      · have := ih (n - 1)
        simp only [loopUsers, hf, hn, if_false, if_neg, countCalls,
          List.filter] at *
        simpa [isDeleteAssistant] using this

theorem countCalls_nil (p : TaskCall → Bool) : countCalls p [] = 0 := rfl

theorem countCalls_append (p : TaskCall → Bool) (a b : List TaskCall) :
    countCalls p (a ++ b) = countCalls p a + countCalls p b := by
  simp [countCalls, List.filter_append]

theorem countCalls_cons (p : TaskCall → Bool) (c : TaskCall) (t : List TaskCall) :
    countCalls p (c :: t) = (if p c then 1 else 0) + countCalls p t := by
  by_cases h : p c <;> simp [countCalls, List.filter_cons, h, Nat.add_comm]

theorem loopUsers_count_le (fails : String → Bool) (users : List String) :
    ∀ n : Int, 1 ≤ n →
      (countCalls isProcessUser (loopUsers fails n users).1 : Int) ≤ n := by
  induction users with
  | nil =>
    intro n hn
    simp only [loopUsers, countCalls, List.filter_nil, List.length_nil]
    omega
  | cons u rest ih =>
    intro n hn
    by_cases hf : fails u
    · simpa [loopUsers, hf, countCalls, isProcessUser] using hn
    · by_cases h1 : n = 1
      · subst h1
        simp [loopUsers, hf, countCalls, isProcessUser]
      · have hrec := ih (n - 1) (by omega)
        simp only [loopUsers, hf, h1, if_false, countCalls_cons, isProcessUser,
          if_true, Bool.false_eq_true, ite_false, ite_true]
        push_cast
        omega

end RunTask

namespace DataSource

theorem foldl_pick_mem (rest : List (Session × BookRow)) (r : Session × BookRow) :
    rest.foldl
        (fun best x => if best.1.event_time < x.1.event_time then x else best) r ∈
      r :: rest := by
  induction rest generalizing r with
  | nil => simp
  | cons x xs ih =>
    simp only [List.foldl_cons]
    by_cases hc : r.1.event_time < x.1.event_time
    · rw [if_pos hc]
      rcases List.mem_cons.mp (ih x) with h1 | h1
      · rw [h1]; simp
      · exact List.mem_cons.mpr (Or.inr (List.mem_cons.mpr (Or.inr h1)))
    · rw [if_neg hc]
      rcases List.mem_cons.mp (ih r) with h1 | h1
      · rw [h1]; simp
      · exact List.mem_cons.mpr (Or.inr (List.mem_cons.mpr (Or.inr h1)))

theorem pickLatest_mem (l : List (Session × BookRow)) (r : Session × BookRow)
    (h : pickLatest l = some r) : r ∈ l := by
  cases l with
  | nil => cases h
  | cons a rest =>
    have hr := Option.some.inj h
    rw [← hr]
    exact foldl_pick_mem rest a

theorem filterMap_pairwise_ne {α β : Type} [DecidableEq α] (key : β → α)
    (keys : List α) (f : α → Option β) (hN : keys.Nodup)
    (hf : ∀ k r, f k = some r → key r = k) :
    (keys.filterMap f).Pairwise (fun a b => key a ≠ key b) := by
  induction keys with
  | nil => simp
  | cons k ks ih =>
    rcases List.nodup_cons.mp hN with ⟨hk, hks⟩
    rw [List.filterMap_cons]
    cases hfk : f k with
    | none => exact ih hks
    | some r =>
      refine List.Pairwise.cons ?_ (ih hks)
      intro b hb
      rcases List.mem_filterMap.mp hb with ⟨k', hk', hfk'⟩
      rw [hf k r hfk, hf k' b hfk']
      intro he
      exact hk (he ▸ hk')

theorem latestPerBook_key_pairwise (sessions : List Session)
    (books : List BookRow) (uid : String) :
    (latestPerBook sessions books uid).Pairwise
      (fun a b => a.2.permanent_id ≠ b.2.permanent_id) := by
  have hf : ∀ (k : String) (r : Session × BookRow),
      pickLatest ((rankedSource sessions books uid).filter
        (fun r => r.2.permanent_id = k)) = some r → r.2.permanent_id = k := by
    intro k r hr
    have hmem := pickLatest_mem _ _ hr
    exact of_decide_eq_true (List.mem_filter.mp hmem).2
  show (((rankedSource sessions books uid).map
      (fun r => r.2.permanent_id)).dedup.filterMap
        (fun k => pickLatest ((rankedSource sessions books uid).filter
          (fun r => r.2.permanent_id = k)))).Pairwise
    (fun a b => a.2.permanent_id ≠ b.2.permanent_id)
  exact filterMap_pairwise_ne (fun r : Session × BookRow => r.2.permanent_id) _ _
    (List.nodup_dedup _) hf

theorem activeRows_count (sessions : List Session) (now days : Int)
    (minCount : Nat) (p : String × Nat)
    (hp : p ∈ activeRows sessions now days minCount) :
    p.2 = winCount sessions now days p.1 ∧
      minCount ≤ winCount sessions now days p.1 := by
  rcases List.mem_filterMap.mp hp with ⟨u, _, hfu⟩
  by_cases hc : minCount ≤ winCount sessions now days u
  · rw [if_pos hc] at hfu
    have := Option.some.inj hfu
    rw [← this]
    exact ⟨rfl, hc⟩
  · rw [if_neg hc] at hfu
    cases hfu

theorem mem_activeRows_iff (sessions : List Session) (now days : Int)
    (minCount : Nat) (hmc : 1 ≤ minCount) (u : String) :
    (∃ c, (u, c) ∈ activeRows sessions now days minCount) ↔
      minCount ≤ winCount sessions now days u := by
  constructor
  · rintro ⟨c, hc⟩
    exact (activeRows_count sessions now days minCount (u, c) hc).2
  · intro h
    refine ⟨winCount sessions now days u, ?_⟩
    rw [activeRows]
    refine List.mem_filterMap.mpr ⟨u, ?_, by rw [if_pos h]⟩
    have hpos : 0 < winCount sessions now days u := lt_of_lt_of_le hmc h
    rw [winCount] at hpos
    rcases List.exists_mem_of_length_pos hpos with ⟨s, hs⟩
    rcases List.mem_filter.mp hs with ⟨hw, hu⟩
    refine List.mem_dedup.mpr ?_
    exact List.mem_map.mpr ⟨s, hw, of_decide_eq_true hu⟩

end DataSource

namespace Claims

open OpenAIAssistant RunTask DataSource

/-- C2 (counterexample): `clean_text` is not idempotent on every string.
On the nested input `"【3:【1:2†source】1†source】"`, one application removes
the inner citation and thereby *creates* a new occurrence of the pattern,
so a second application changes the text again. -/
theorem clean_text_idem_counterexample :
    clean_text (clean_text "【3:【1:2†source】1†source】") ≠
      clean_text "【3:【1:2†source】1†source】" := by
  decide

/-- C2 (amended): `clean_text` is idempotent on every input whose cleaned
form contains no further occurrence of the citation pattern (which is
every non-nested input; nested citations defeat unrestricted idempotence),
and on the input `"Great book 【3:1†source】 for kids"` it returns
`"Great book  for kids"`, removing the citation and preserving the
surrounding text. -/
theorem clean_text_idempotent_on_clean_output :
    (∀ s : String, hasCitation (clean_text s).data = false →
        clean_text (clean_text s) = clean_text s) ∧
    clean_text "Great book 【3:1†source】 for kids" = "Great book  for kids" := by
  constructor
  · intro s h
    show String.mk (pyStrip (subCitations (clean_text s).data)) = clean_text s
    rw [subCitations_of_not_hasCitation _ h]
    show String.mk (pyStrip (pyStrip (subCitations s.data))) = clean_text s
    rw [pyStrip_idempotent]
    rfl
  · decide

/-- Witness for C2: idempotence holds at the concrete spec example. -/
theorem clean_text_idempotent_witness :
    clean_text (clean_text "Great book 【3:1†source】 for kids") =
      clean_text "Great book 【3:1†source】 for kids" :=
  clean_text_idempotent_on_clean_output.1 "Great book 【3:1†source】 for kids" (by decide)

/-- C1 (counterexample): not every exit path of `run_task` runs the
teardown.  With command-line argument `"x"`, the assistant is provisioned
(line 8) but `int(sys.argv[1])` (line 13) raises *before* the try/finally
is entered, so the script exits with zero `delete_assistant` calls. -/
theorem run_task_teardown_counterexample :
    (run_task (some "x") ["u1"] (fun _ => false)).1 =
        [TaskCall.fetchBooks, TaskCall.ensureAssistant, TaskCall.unlinkFile] ∧
      countCalls isDeleteAssistant (run_task (some "x") ["u1"] (fun _ => false)).1 = 0 := by
  decide

/-- C1 (amended): on every exit path that enters the guarded try/finally —
that is, whenever the optional command-line argument is absent or parses
as an integer — `delete_assistant` is invoked exactly once, regardless of
whether per-user processing raised; a parse failure of the argument exits
before the guard and skips teardown. -/
theorem run_task_teardown_once (argv1 : Option String) (users : List String)
    (fails : String → Bool)
    (h : argv1 = none ∨ ∃ s n, argv1 = some s ∧ parseIntPy s = some n) :
    countCalls isDeleteAssistant (run_task argv1 users fails).1 = 1 := by
  have key : ∀ m : Int,
      countCalls isDeleteAssistant
        (([TaskCall.fetchBooks, TaskCall.ensureAssistant, TaskCall.unlinkFile] :
            List TaskCall) ++ TaskCall.getActiveUsers ::
          ((loopUsers fails m users).1 ++ [TaskCall.deleteAssistant])) = 1 := by
    intro m
    simp [countCalls_append, countCalls_cons, countCalls_nil,
      isDeleteAssistant, loopUsers_no_delete]
  rcases h with h | ⟨s, n, hs, hp⟩
  · subst h
    simpa [run_task] using key 1
  · subst hs
    simpa [run_task, hp] using key n

/-- Witness for C1: a run whose second user raises still tears down once. -/
theorem run_task_teardown_once_witness :
    countCalls isDeleteAssistant
      (run_task (some "3") ["u1", "u2", "u3"] (fun u => u == "u2")).1 = 1 :=
  run_task_teardown_once (some "3") ["u1", "u2", "u3"] (fun u => u == "u2")
    (Or.inr ⟨"3", 3, rfl, by decide⟩)

/-- C4 (counterexample): passing `0` — a non-negative integer — does not
bound processing by 0 users: the loop only stops when the counter *equals*
1, so with argument `"0"` it decrements past 1 and processes every active
user; here 1 user is processed where the claim allows 0. -/
theorem run_task_user_limit_counterexample :
    parseIntPy "0" = some 0 ∧
      countCalls isProcessUser (run_task (some "0") ["u1"] (fun _ => false)).1 = 1 ∧
      ¬ countCalls isProcessUser (run_task (some "0") ["u1"] (fun _ => false)).1 ≤ 0 := by
  decide

/-- C4 (amended): for every *positive* integer N passed as the optional
positional argument (and for the default 1 when the argument is absent),
the main loop of `run_task` processes at most N users from the
active-user list; for N ≤ 0 the counter never reaches 1 and all active
users are processed. -/
theorem run_task_user_limit (argv1 : Option String) (N : Int)
    (users : List String) (fails : String → Bool)
    (h : (argv1 = none ∧ N = 1) ∨ ∃ s, argv1 = some s ∧ parseIntPy s = some N)
    (hN : 1 ≤ N) :
    (countCalls isProcessUser (run_task argv1 users fails).1 : Int) ≤ N := by
  have key : ∀ m : Int,
      countCalls isProcessUser
        (([TaskCall.fetchBooks, TaskCall.ensureAssistant, TaskCall.unlinkFile] :
            List TaskCall) ++ TaskCall.getActiveUsers ::
          ((loopUsers fails m users).1 ++ [TaskCall.deleteAssistant])) =
        countCalls isProcessUser (loopUsers fails m users).1 := by
    intro m
    simp [countCalls_append, countCalls_cons, countCalls_nil, isProcessUser]
  rcases h with ⟨h, hN1⟩ | ⟨s, hs, hp⟩
  · subst h
    subst hN1
    have e : countCalls isProcessUser (run_task none users fails).1 =
        countCalls isProcessUser (loopUsers fails 1 users).1 := by
      simpa [run_task] using key 1
    rw [e]
    exact loopUsers_count_le fails users 1 (le_refl 1)
  · subst hs
    have e : countCalls isProcessUser (run_task (some s) users fails).1 =
        countCalls isProcessUser (loopUsers fails N users).1 := by
      simpa [run_task, hp] using key N
    rw [e]
    exact loopUsers_count_le fails users N hN

/-- Witness for C4: with argument "2" and three active users at most two
are processed. -/
theorem run_task_user_limit_witness :
    (countCalls isProcessUser
      (run_task (some "2") ["a", "b", "c"] (fun _ => false)).1 : Int) ≤ 2 :=
  run_task_user_limit (some "2") 2 ["a", "b", "c"] (fun _ => false)
    (Or.inr ⟨"2", rfl, by decide⟩) (by decide)

/-- C5 (counterexample): teardown does not delete the assistant last.
With one bound vector store holding one file and no failures, the trace
is retrieve, delete-assistant, list-files, delete-file, delete-vector-
store: the assistant deletion precedes the index deletion, contradicting
the claimed order (files, then indexes, then assistant). -/
theorem delete_assistant_order_counterexample :
    delete_assistant true true (fun _ => true) (fun _ _ => true)
        [⟨"vs1", ["f1"]⟩] =
      [CleanupCall.retrieve, CleanupCall.deleteAsst,
        CleanupCall.listFiles "vs1", CleanupCall.deleteFile "vs1" "f1",
        CleanupCall.deleteVS "vs1"] ∧
    ¬ callsBefore
        (delete_assistant true true (fun _ => true) (fun _ _ => true)
          [⟨"vs1", ["f1"]⟩])
        isDeleteVS isDeleteAsstCall := by
  decide

/-- C5 (amended): teardown first looks up the bound index ids, then
deletes the *assistant*, and only then cleans the indexes: for each index
it lists the files, deletes every file, and then deletes the index (when
its deletions succeed).  A failure inside one index's cleanup is caught
and logged and cleanup continues with the remaining indexes — every
index's cleanup is still attempted — though a file-deletion failure skips
the rest of that one index, and a failure of the assistant lookup or of
the assistant deletion aborts all remaining cleanup. -/
theorem delete_assistant_order (retrieveOk deleteOk : Bool)
    (listOk : String → Bool) (fileOk : String → String → Bool)
    (stores : List VectorStore)
    (hr : retrieveOk = true) (hd : deleteOk = true) :
    delete_assistant retrieveOk deleteOk listOk fileOk stores =
        CleanupCall.retrieve :: CleanupCall.deleteAsst ::
          (stores.map (cleanupStore listOk fileOk)).flatten ∧
      (∀ vs ∈ stores,
        CleanupCall.listFiles vs.id ∈
          delete_assistant retrieveOk deleteOk listOk fileOk stores) ∧
      (∀ vs ∈ stores, listOk vs.id = true →
        (∀ f ∈ vs.files, fileOk vs.id f = true) →
        cleanupStore listOk fileOk vs =
          CleanupCall.listFiles vs.id ::
            (vs.files.map (CleanupCall.deleteFile vs.id) ++
              [CleanupCall.deleteVS vs.id])) := by
  subst hr; subst hd
  refine ⟨by simp [delete_assistant], ?_, ?_⟩
  · intro vs hvs
    simp only [delete_assistant, if_true, List.mem_cons]
    right; right
    rw [List.mem_flatten]
    refine ⟨cleanupStore listOk fileOk vs, List.mem_map_of_mem _ hvs, ?_⟩
    by_cases hl : listOk vs.id <;> simp [cleanupStore, hl]
  · intro vs _ hl hf
    simp [cleanupStore, hl, deleteFilesCalls_all_ok fileOk vs.id vs.files hf]

/-- Witness for C5: two stores, all deletions succeeding. -/
theorem delete_assistant_order_witness :
    delete_assistant true true (fun _ => true) (fun _ _ => true)
        [⟨"vs1", ["f1", "f2"]⟩, ⟨"vs2", []⟩] =
      CleanupCall.retrieve :: CleanupCall.deleteAsst ::
        (([⟨"vs1", ["f1", "f2"]⟩, ⟨"vs2", []⟩] : List VectorStore).map
          (cleanupStore (fun _ => true) (fun _ _ => true))).flatten ∧
    (∀ vs ∈ ([⟨"vs1", ["f1", "f2"]⟩, ⟨"vs2", []⟩] : List VectorStore),
      CleanupCall.listFiles vs.id ∈
        delete_assistant true true (fun _ => true) (fun _ _ => true)
          [⟨"vs1", ["f1", "f2"]⟩, ⟨"vs2", []⟩]) ∧
    (∀ vs ∈ ([⟨"vs1", ["f1", "f2"]⟩, ⟨"vs2", []⟩] : List VectorStore),
      (fun _ => true) vs.id = true →
      (∀ f ∈ vs.files, (fun _ _ => true) vs.id f = true) →
      cleanupStore (fun _ => true) (fun _ _ => true) vs =
        CleanupCall.listFiles vs.id ::
          (vs.files.map (CleanupCall.deleteFile vs.id) ++
            [CleanupCall.deleteVS vs.id])) :=
  delete_assistant_order true true (fun _ => true) (fun _ _ => true)
    [⟨"vs1", ["f1", "f2"]⟩, ⟨"vs2", []⟩] rfl rfl

/-- C6: whenever the polling loop observes a terminal status of `failed`
or `cancelled`, `analyze_user_interest` returns the empty string and
`search_books_by_interest` returns the empty list — whatever summary or
book list the tool calls had accumulated is discarded.  Both embeddings
are total functions, so no exception is raised on these paths. -/
theorem run_failure_empty_results (pa ps : List RunStatus)
    (sta sts : RunStatus) (ra : String) (rs : List BookObj)
    (ha : analyzeLoop pa "" = some (sta, ra))
    (hta : sta = RunStatus.failed ∨ sta = RunStatus.cancelled)
    (hs : searchLoop ps [] = some (sts, rs))
    (hts : sts = RunStatus.failed ∨ sts = RunStatus.cancelled) :
    analyze_user_interest pa = some "" ∧
      search_books_by_interest ps = some [] := by
  constructor
  · unfold analyze_user_interest
    rw [ha]
    rcases hta with h | h <;> subst h <;> rfl
  · unfold search_books_by_interest
    rw [hs]
    rcases hts with h | h <;> subst h <;> rfl

/-- Witness for C6: runs that supply a summary / a book list via a tool
call and then fail (or are cancelled) still yield empty results. -/
theorem run_failure_empty_results_witness :
    analyze_user_interest
        [RunStatus.requires_action [⟨"recommend_books", some "likes space", none⟩],
          RunStatus.failed] = some "" ∧
      search_books_by_interest
        [RunStatus.requires_action
            [⟨"recommend_books", none,
              some [[("book_id", "1"), ("book_title", "T"), ("reason", "R")]]⟩],
          RunStatus.cancelled] = some [] :=
  run_failure_empty_results _ _ RunStatus.failed RunStatus.cancelled
    "likes space" [[("book_id", "1"), ("book_title", "T"), ("reason", "R")]]
    (by decide) (Or.inl rfl) (by decide) (Or.inr rfl)

/-- C10: the per-book rewrite in `search_books_by_interest` (lines
214-216) rewrites exactly the `reason` and `book_title` fields through
`clean_text`; every other field — in particular `book_id` — is returned
with the value it had in the tool-call arguments. -/
theorem cleanBook_frame (b b' : BookObj) (h : cleanBook b = some b') :
    List.lookup "book_id" b' = List.lookup "book_id" b ∧
      (∀ k : String, k ≠ "reason" → k ≠ "book_title" →
        List.lookup k b' = List.lookup k b) ∧
      List.lookup "reason" b' = (List.lookup "reason" b).map clean_text ∧
      List.lookup "book_title" b' =
        (List.lookup "book_title" b).map clean_text := by
  unfold cleanBook at h
  split at h
  next hr => cases h
  next r hr =>
    split at h
    next ht => cases h
    next t ht =>
      have hb : b' =
          setKey "book_title" (clean_text t) (setKey "reason" (clean_text r) b) :=
        (Option.some.inj h).symm
      subst hb
      have htb : List.lookup "book_title" b = some t := by
        rw [← ht,
          lookup_setKey_ne "book_title" "reason" (clean_text r) b (by decide)]
      refine ⟨?_, ?_, ?_, ?_⟩
      · rw [lookup_setKey_ne "book_id" "book_title" (clean_text t)
            (setKey "reason" (clean_text r) b) (by decide),
          lookup_setKey_ne "book_id" "reason" (clean_text r) b (by decide)]
      · intro k hk1 hk2
        rw [lookup_setKey_ne k "book_title" (clean_text t)
            (setKey "reason" (clean_text r) b) hk2,
          lookup_setKey_ne k "reason" (clean_text r) b hk1]
      · rw [lookup_setKey_ne "reason" "book_title" (clean_text t)
            (setKey "reason" (clean_text r) b) (by decide),
          lookup_setKey_self "reason" (clean_text r) b, hr]
        rfl
      · rw [lookup_setKey_self "book_title" (clean_text t)
            (setKey "reason" (clean_text r) b), ht, htb]
        rfl

/-- Witness for C10: a concrete book whose title carries a citation. -/
theorem cleanBook_frame_witness :
    List.lookup "book_id"
        ([("book_id", "42"), ("book_title", "T"), ("reason", "R")] : BookObj) =
      List.lookup "book_id"
        ([("book_id", "42"), ("book_title", "T 【1:2†source】"),
          ("reason", "R")] : BookObj) :=
  (cleanBook_frame
    [("book_id", "42"), ("book_title", "T 【1:2†source】"), ("reason", "R")]
    [("book_id", "42"), ("book_title", "T"), ("reason", "R")] (by decide)).1

/-- C7: with the default limit of 5, `get_user_read_books` returns at
most 5 records, no two returned records share a `book_id`
(`PERMANENT_ID`), and the records are ordered most-recent-first by event
time (non-increasing `event_time`). -/
theorem get_user_read_books_spec (sessions : List Session)
    (books : List BookRow) (uid : String) :
    (get_user_read_books sessions books uid).length ≤ 5 ∧
      ((get_user_read_books sessions books uid).map BookRecord.book_id).Nodup ∧
      (get_user_read_books sessions books uid).Pairwise
        (fun a b => b.event_time ≤ a.event_time) := by
  refine ⟨?_, ?_, ?_⟩
  · unfold get_user_read_books
    rw [List.length_map, List.length_take]
    exact min_le_left _ _
  · have hkeys := latestPerBook_key_pairwise sessions books uid
    have hpw : (List.insertionSort timeDesc
        (latestPerBook sessions books uid)).Pairwise
          (fun a b => a.2.permanent_id ≠ b.2.permanent_id) :=
      (List.Perm.pairwise_iff (fun h => Ne.symm h)
        (List.perm_insertionSort timeDesc _)).mpr hkeys
    have htake := List.Pairwise.sublist (List.take_sublist 5 _) hpw
    unfold get_user_read_books
    rw [List.map_map]
    exact List.pairwise_map.mpr htake
  · have hs := List.sorted_insertionSort timeDesc
      (latestPerBook sessions books uid)
    have htake := List.Pairwise.sublist (List.take_sublist 5 _) hs
    unfold get_user_read_books
    exact List.pairwise_map.mpr htake

/-- C8: `get_active_users(14, 5)` returns exactly the users with at least
5 in-window activity events (membership is equivalent to the count
reaching 5), and the returned sequence is sorted by descending event
count. -/
theorem get_active_users_spec (sessions : List Session) (now : Int) :
    (∀ u, u ∈ get_active_users sessions now 14 5 ↔
        5 ≤ winCount sessions now 14 u) ∧
      (get_active_users sessions now 14 5).Pairwise
        (fun a b => winCount sessions now 14 b ≤ winCount sessions now 14 a) := by
  constructor
  · intro u
    constructor
    · intro hu
      unfold get_active_users at hu
      rcases List.mem_map.mp hu with ⟨p, hp, hpu⟩
      rw [List.mem_insertionSort] at hp
      exact hpu ▸ (activeRows_count sessions now 14 5 p hp).2
    · intro h5
      rcases (mem_activeRows_iff sessions now 14 5 (by norm_num) u).mpr h5
        with ⟨c, hc⟩
      unfold get_active_users
      refine List.mem_map.mpr ⟨(u, c), ?_, rfl⟩
      rw [List.mem_insertionSort]
      exact hc
  · have hsorted := List.sorted_insertionSort countDesc
      (activeRows sessions now 14 5)
    have hfact : ∀ p ∈ (activeRows sessions now 14 5).insertionSort countDesc,
        p.2 = winCount sessions now 14 p.1 := by
      intro p hp
      rw [List.mem_insertionSort] at hp
      exact (activeRows_count sessions now 14 5 p hp).1
    have himp : ((activeRows sessions now 14 5).insertionSort
        countDesc).Pairwise
          (fun a b => winCount sessions now 14 b.1 ≤ winCount sessions now 14 a.1) := by
      refine List.Pairwise.imp_of_mem ?_ hsorted
      intro a b ha hb hr
      rw [← hfact a ha, ← hfact b hb]
      exact hr
    unfold get_active_users
    exact List.pairwise_map.mpr himp

/-- C9: `get_book_info` returns the long-form description of a catalog
entry matching the given id when the query yields rows (the first row's
`DESCRIPTION` column, which is the description of a `REGULAR_BOOK` row
with that `PERMANENT_ID`), and the empty string when the query yields no
rows. -/
theorem get_book_info_spec (db : StudioDB) (book_id : String) :
    (bookInfoRows db book_id = [] → get_book_info db book_id = "") ∧
      (∀ r rs, bookInfoRows db book_id = r :: rs →
        ∃ rb ∈ db.regular_books, rb.permanent_id = book_id ∧
          get_book_info db book_id = rb.description) := by
  constructor
  · intro h
    unfold get_book_info
    rw [h]
  · intro r rs h
    have hr : r ∈ bookInfoRows db book_id := by rw [h]; simp
    unfold bookInfoRows at hr
    rw [List.mem_dedup] at hr
    rcases List.mem_filter.mp hr with ⟨hmem, hkey⟩
    rcases List.mem_flatMap.mp hmem with ⟨rb, hrb, h2⟩
    rcases List.mem_flatMap.mp h2 with ⟨pb, _, h3⟩
    rcases List.mem_flatMap.mp h3 with ⟨pbe, _, h4⟩
    rcases List.mem_flatMap.mp h4 with ⟨e, _, h5⟩
    rcases List.mem_map.mp h5 with ⟨bei, _, hre⟩
    refine ⟨rb, hrb, ?_, ?_⟩
    · have hk := of_decide_eq_true hkey
      rw [← hre] at hk
      exact hk
    · unfold get_book_info
      rw [h, ← hre]

/-- Witness for C9: an id absent from the example catalog yields `""`. -/
theorem get_book_info_spec_witness : get_book_info exampleDB "zz" = "" :=
  (get_book_info_spec exampleDB "zz").1 (by decide)

/-- C3 (counterexample): on a catalog with one production book, the file
written by `fetch_all_production_books` is one JSON line whose keys are
`book_id`, `book_title`, `book_Description` — not `book_id`, `title`,
`description` as claimed: `title` and `description` do not occur among
the record's keys. -/
theorem fetch_books_keys_counterexample :
    fetch_all_production_books exampleDB =
        "\x7b\"book_id\": \"p1\", \"book_title\": \"T1\", \"book_Description\": \"D1\"\x7d\n" ∧
      (libraryRecord ("p1", "T1", "D1")).map Prod.fst =
        ["book_id", "book_title", "book_Description"] ∧
      "title" ∉ (libraryRecord ("p1", "T1", "D1")).map Prod.fst ∧
      "description" ∉ (libraryRecord ("p1", "T1", "D1")).map Prod.fst := by
  decide

/-- C3 (amended): every line of the file written by
`fetch_all_production_books` is the JSON serialization of an object with
exactly the three keys `book_id`, `book_title`, `book_Description` (one
object per catalog row). -/
theorem fetch_books_lines (db : StudioDB) (line : String)
    (h : line ∈ libraryLines db) :
    ∃ r ∈ productionBooksRows db,
      line = jsonObj (libraryRecord r) ∧
        (libraryRecord r).map Prod.fst =
          ["book_id", "book_title", "book_Description"] := by
  rcases List.mem_map.mp h with ⟨r, hr, hline⟩
  exact ⟨r, hr, hline.symm, rfl⟩

/-- Witness for C3: the single line of the example catalog's file. -/
theorem fetch_books_lines_witness :
    ∃ r ∈ productionBooksRows exampleDB,
      "\x7b\"book_id\": \"p1\", \"book_title\": \"T1\", \"book_Description\": \"D1\"\x7d" =
          jsonObj (libraryRecord r) ∧
        (libraryRecord r).map Prod.fst =
          ["book_id", "book_title", "book_Description"] :=
  fetch_books_lines exampleDB
    "\x7b\"book_id\": \"p1\", \"book_title\": \"T1\", \"book_Description\": \"D1\"\x7d"
    (by decide)

end Claims
